import Mathlib

/-!
Verification development for the taxai repository's tax-form backend and its
Tax Calculation & Form Validation Engine.

The definitions below are a shallow embedding of:
* `src/backend/src/models/TaxForm.ts` (`TaxFormModel.create` / `TaxFormModel.update`),
* `src/unnamed/part_010` (`TaxFormController.updateTaxForm` / `submitTaxForm` /
  `getFormTemplates`),
* `src/unnamed/part_007` (role-based permissions: `ROLE_PERMISSIONS`,
  `hasPermission`, `getUserPermissions`, `hasAllPermissions`),
* the seed data of `src/unnamed/part_012` (2024 personal-income tax brackets and
  the TNCN_ANNUAL form template),
and, where the repository declares but does not implement a component
(the Calculator and the Validator of spec sections 4.2/4.3), models written
from the specification's words; those definitions are marked
`Modelled from the spec:` in their doc comments.
-/

/-- `FormStatus` from `src/backend/src/types/taxForm.ts`. -/
inductive FormStatus where
  | DRAFT
  | COMPLETED
  | SUBMITTED
  | APPROVED
  | REJECTED
  | CANCELLED
deriving DecidableEq, Repr

/-- The persisted columns of a `tax_forms` row that the embedded operations
touch, from the `TaxFormData` interface of `src/backend/src/models/TaxForm.ts`
(string/date columns are Lean `String`s; monetary amounts are integers). -/
structure TaxFormData where
  userId : String
  status : FormStatus
  taxYear : Int
  notes : Option String
  totalTaxAmount : Int
  totalPayableAmount : Int
  submissionDate : Option String
  version : Int
deriving DecidableEq, Repr

/-- A `Partial<TaxFormData>` updates object as passed to `TaxFormModel.update`:
each property is either present (`some`) or `undefined` (`none`); for the
nullable columns (`notes`, `submissionDate`) a present property carries an
`Option String`, mirroring TypeScript's undefined/null distinction. -/
structure FormUpdates where
  status : Option FormStatus := none
  taxYear : Option Int := none
  notes : Option (Option String) := none
  totalTaxAmount : Option Int := none
  totalPayableAmount : Option Int := none
  submissionDate : Option (Option String) := none
  version : Option Int := none
deriving DecidableEq, Repr

/-- The `tax_forms` table: rows keyed by id. -/
def FormStore := List (String × TaxFormData)

/-- `SELECT * FROM tax_forms WHERE id = $1` (`TaxFormModel.findById`). -/
def findForm : FormStore → String → Option TaxFormData
  | [], _ => none
  | (k, v) :: rest, id => if k = id then some v else findForm rest id

/-- `UPDATE tax_forms SET ... WHERE id = $n`: every row whose key matches is
replaced by the updated row. -/
def setForm : FormStore → String → TaxFormData → FormStore
  | [], _, _ => []
  | (k, v) :: rest, id, f =>
      if k = id then (k, f) :: setForm rest id f
      else (k, v) :: setForm rest id f

/-- The `Object.entries(updates)` loop of `TaxFormModel.update` builds a SET
clause from the defined properties; this predicate is `setClause.length > 0`. -/
def hasAnyUpdate (u : FormUpdates) : Bool :=
  u.status.isSome || u.taxYear.isSome || u.notes.isSome ||
  u.totalTaxAmount.isSome || u.totalPayableAmount.isSome ||
  u.submissionDate.isSome || u.version.isSome

/-- Applying the SET clause built by `TaxFormModel.update` to a row: each
defined property overwrites the stored column, every other column keeps its
stored value. -/
def applyUpdates (f : TaxFormData) (u : FormUpdates) : TaxFormData :=
  { userId := f.userId
    status := u.status.getD f.status
    taxYear := u.taxYear.getD f.taxYear
    notes := u.notes.getD f.notes
    totalTaxAmount := u.totalTaxAmount.getD f.totalTaxAmount
    totalPayableAmount := u.totalPayableAmount.getD f.totalPayableAmount
    submissionDate := u.submissionDate.getD f.submissionDate
    version := u.version.getD f.version }

/-- `TaxFormModel.update` (`src/backend/src/models/TaxForm.ts` lines 145-189):
if no property of the updates object is defined the transaction is rolled back
and `null` is returned with the table untouched; otherwise the matching row is
updated and returned, and `null` is returned (table unchanged) when no row
matches the id. The result pairs the returned value with the table after the
call. -/
def TaxFormModel.update (store : FormStore) (id : String) (u : FormUpdates) :
    Option TaxFormData × FormStore :=
  if hasAnyUpdate u then
    match findForm store id with
    | some f =>
        let f' := applyUpdates f u
        (some f', setForm store id f')
    | none => (none, store)
  else
    (none, store)

/-- `TaxFormModel.create` with the form data assembled by
`TaxFormController.createTaxForm` (`src/unnamed/part_010` lines 53-67):
a new row starts in `DRAFT` with `version = 1`. -/
def TaxFormController.createTaxForm (userId : String) (taxYear : Int)
    (notes : Option String) : TaxFormData :=
  { userId := userId
    status := FormStatus.DRAFT
    taxYear := taxYear
    notes := notes
    totalTaxAmount := 0
    totalPayableAmount := 0
    submissionDate := none
    version := 1 }

/-- The authenticated requester (`req.user`): id and role. -/
structure UserCtx where
  id : String
  role : String
deriving DecidableEq, Repr

/-- The error codes the embedded controller handlers can answer with. -/
inductive ErrCode where
  | VALIDATION_ERROR
  | UNAUTHORIZED
  | INVALID_PARAMS
  | NOT_FOUND
  | FORBIDDEN
  | INVALID_STATUS
deriving DecidableEq, Repr

/-- A handler outcome: the HTTP response (an error code, or success carrying
the value `TaxFormModel.update` returned) together with the table after the
request. -/
structure StepResult where
  response : Except ErrCode (Option TaxFormData)
  store : FormStore

/-- `TaxFormController.updateTaxForm` (`src/unnamed/part_010` lines 201-293):
express-validator result, authentication, form-id presence, row lookup,
ownership (bypassed for role `admin`), then the SUBMITTED-status check
(also bypassed for role `admin`), and finally `TaxFormModel.update`. -/
def TaxFormController.updateTaxForm (store : FormStore) (auth : Option UserCtx)
    (formId : Option String) (bodyOk : Bool) (u : FormUpdates) : StepResult :=
  if !bodyOk then ⟨.error .VALIDATION_ERROR, store⟩
  else
    match auth with
    | none => ⟨.error .UNAUTHORIZED, store⟩
    | some user =>
      match formId with
      | none => ⟨.error .INVALID_PARAMS, store⟩
      | some fid =>
        match findForm store fid with
        | none => ⟨.error .NOT_FOUND, store⟩
        | some f =>
          if f.userId ≠ user.id ∧ user.role ≠ "admin" then
            ⟨.error .FORBIDDEN, store⟩
          else if f.status = FormStatus.SUBMITTED ∧ user.role ≠ "admin" then
            ⟨.error .INVALID_STATUS, store⟩
          else
            let r := TaxFormModel.update store fid u
            ⟨.ok r.1, r.2⟩

/-- `TaxFormController.submitTaxForm` (`src/unnamed/part_010` lines 296-382):
authentication, form-id presence, row lookup, strict ownership (no admin
bypass), the status gate accepting DRAFT or COMPLETED, then
`TaxFormModel.update` setting status SUBMITTED and the submission date
(`now` stands for `new Date().toISOString()`). -/
def TaxFormController.submitTaxForm (store : FormStore) (auth : Option UserCtx)
    (formId : Option String) (now : String) : StepResult :=
  match auth with
  | none => ⟨.error .UNAUTHORIZED, store⟩
  | some user =>
    match formId with
    | none => ⟨.error .INVALID_PARAMS, store⟩
    | some fid =>
      match findForm store fid with
      | none => ⟨.error .NOT_FOUND, store⟩
      | some f =>
        if f.userId ≠ user.id then
          ⟨.error .FORBIDDEN, store⟩
        else if f.status ≠ FormStatus.DRAFT ∧ f.status ≠ FormStatus.COMPLETED then
          ⟨.error .INVALID_STATUS, store⟩
        else
          let r := TaxFormModel.update store fid
            { status := some FormStatus.SUBMITTED, submissionDate := some (some now) }
          ⟨.ok r.1, r.2⟩

/-- The result of a JavaScript property read on the `ROLE_PERMISSIONS` object
literal: an own array property, an inherited member of `Object.prototype`
reached through the prototype chain (a truthy value that is not an array), or
`undefined` when the name is found nowhere on the chain. -/
inductive PermLookup where
  | arr (ps : List String)
  | protoMember (name : String)
  | undef
deriving DecidableEq, Repr

/-- A thrown JavaScript `TypeError`. -/
inductive JsError where
  | typeError
deriving DecidableEq, Repr

/-- The member names every plain object literal inherits from
`Object.prototype` (the standard ECMAScript methods, the `__proto__` accessor
and the legacy accessor-definition methods present in Node). -/
def objectPrototypeMembers : List String :=
  ["constructor", "hasOwnProperty", "isPrototypeOf", "propertyIsEnumerable",
   "toLocaleString", "toString", "valueOf", "__proto__",
   "__defineGetter__", "__defineSetter__", "__lookupGetter__", "__lookupSetter__"]

/-- `ROLE_PERMISSIONS[userRole]` from `src/unnamed/part_007` lines 26-65:
bracket access on the plain object literal returns the role's own array for the
four defined keys; any other name is looked up along the prototype chain, so a
name of an `Object.prototype` member yields that inherited member, and only a
name found nowhere on the chain yields `undefined`. -/
def rolePermissionsAccess (userRole : String) : PermLookup :=
  if userRole = "individual" then
    PermLookup.arr
      ["tax_form:read", "tax_form:write", "tax_form:delete", "tax_form:submit",
       "user:read", "user:write"]
  else if userRole = "business" then
    PermLookup.arr
      ["tax_form:read", "tax_form:write", "tax_form:delete", "tax_form:submit",
       "user:read", "user:write"]
  else if userRole = "consultant" then
    PermLookup.arr
      ["tax_form:read", "tax_form:write", "tax_form:delete", "tax_form:submit",
       "tax_form:approve", "user:read", "user:write"]
  else if userRole = "admin" then
    PermLookup.arr
      ["tax_form:read", "tax_form:write", "tax_form:delete", "tax_form:submit",
       "tax_form:approve", "user:read", "user:write", "user:delete",
       "admin:read", "admin:write", "system:config"]
  else if objectPrototypeMembers.contains userRole then
    PermLookup.protoMember userRole
  else
    PermLookup.undef

/-- `ROLE_PERMISSIONS[userRole] || []`: `undefined` is falsy and is replaced by
the empty array; an own array or a truthy inherited prototype member is kept
as-is. -/
def rolePermissionsOrEmpty (userRole : String) : PermLookup :=
  match rolePermissionsAccess userRole with
  | PermLookup.undef => PermLookup.arr []
  | v => v

/-- `value.includes(permission)`: defined on arrays; calling it on an inherited
`Object.prototype` member (a function or the prototype object itself) throws a
`TypeError`. -/
def jsIncludes (v : PermLookup) (permission : String) : Except JsError Bool :=
  match v with
  | PermLookup.arr ps => Except.ok (ps.contains permission)
  | _ => Except.error JsError.typeError

/-- `hasPermission` from `src/unnamed/part_007` lines 68-71: it calls
`.includes` on `ROLE_PERMISSIONS[userRole] || []`, so it can throw. -/
def hasPermission (userRole : String) (permission : String) :
    Except JsError Bool :=
  jsIncludes (rolePermissionsOrEmpty userRole) permission

/-- `getUserPermissions` from `src/unnamed/part_007` lines 199-201: it returns
`ROLE_PERMISSIONS[userRole] || []` unchanged, whatever the lookup produced. -/
def getUserPermissions (userRole : String) : PermLookup :=
  rolePermissionsOrEmpty userRole

/-- `Array.prototype.every` with a possibly-throwing callback: true on the
empty list without invoking the callback, otherwise short-circuiting on the
first false result or thrown error. -/
def jsEvery : List String → (String → Except JsError Bool) → Except JsError Bool
  | [], _ => Except.ok true
  | p :: rest, f =>
    match f p with
    | Except.error e => Except.error e
    | Except.ok b => if b then jsEvery rest f else Except.ok false

/-- `hasAllPermissions` from `src/unnamed/part_007` lines 204-207:
`permissions.every(p => rolePermissions.includes(p))` over the looked-up
value. -/
def hasAllPermissions (userRole : String) (permissions : List String) :
    Except JsError Bool :=
  jsEvery permissions (fun permission =>
    jsIncludes (rolePermissionsOrEmpty userRole) permission)

/-- A bracket of a progressive tax table, as seeded in `tax_configurations`
(`src/unnamed/part_012` lines 1106-1119): `max_income` is `null` on the last,
unbounded bracket; rates are exact rationals. -/
structure TaxBracket where
  minIncome : ℚ
  maxIncome : Option ℚ
  rate : ℚ
  deduction : ℚ
deriving DecidableEq, Repr

/-- Modelled from the spec: the Calculator's bracket match (spec section 4.3
step 3) — `taxableIncome` lies in `[minIncome, maxIncome)`, with the last
bracket matching whenever `maxIncome` is null and `taxableIncome >= minIncome`.
The repository declares the Calculator's types but contains no implementation. -/
def bracketContains (b : TaxBracket) (x : ℚ) : Bool :=
  match b.maxIncome with
  | some m => decide (b.minIncome ≤ x) && decide (x < m)
  | none => decide (b.minIncome ≤ x)

/-- Modelled from the spec: locate the (first) bracket whose half-open range
contains the taxable income (spec section 4.3 step 3). -/
def locateBracket : List TaxBracket → ℚ → Option TaxBracket
  | [], _ => none
  | b :: rest, x => if bracketContains b x then some b else locateBracket rest x

/-- Modelled from the spec: the Calculator's bracket walk (spec section 4.3
steps 2-3) applied to an already-derived taxable income — zero tax when the
taxable income is non-positive, otherwise `tax = x * rate - deduction` for the
located bracket; a failed lookup is the `InvalidRuleSetError` configuration
case, rendered as `none`. -/
def calculate (brackets : List TaxBracket) (x : ℚ) : Option ℚ :=
  if x ≤ 0 then some 0
  else
    match locateBracket brackets x with
    | some b => some (x * b.rate - b.deduction)
    | none => none

/-- The 2024 `personal_income` bracket table seeded in `tax_configurations`
(`src/unnamed/part_012` lines 1107-1119). -/
def pit2024Brackets : List TaxBracket :=
  [ ⟨0, some 5000000, 5/100, 0⟩,
    ⟨5000000, some 10000000, 10/100, 250000⟩,
    ⟨10000000, some 18000000, 15/100, 750000⟩,
    ⟨18000000, some 32000000, 20/100, 1650000⟩,
    ⟨32000000, some 52000000, 25/100, 3250000⟩,
    ⟨52000000, some 80000000, 30/100, 5850000⟩,
    ⟨80000000, none, 35/100, 9850000⟩ ]

/-- Closed form of `calculate pit2024Brackets`: the nested comparison ladder the
seeded table induces; used to reason about the bracket walk. -/
def pit2024Closed (x : ℚ) : ℚ :=
  if x ≤ 0 then 0
  else if x < 5000000 then x * (5/100) - 0
  else if x < 10000000 then x * (10/100) - 250000
  else if x < 18000000 then x * (15/100) - 750000
  else if x < 32000000 then x * (20/100) - 1650000
  else if x < 52000000 then x * (25/100) - 3250000
  else if x < 80000000 then x * (30/100) - 5850000
  else x * (35/100) - 9850000

set_option maxHeartbeats 1000000 in
theorem calculate_pit2024_eq (x : ℚ) :
    calculate pit2024Brackets x = some (pit2024Closed x) := by
  rcases le_or_lt x 0 with h0 | h0
  · simp [calculate, pit2024Closed, h0]
  · have h0l : (0 : ℚ) ≤ x := h0.le
    have hn0 : ¬ x ≤ 0 := not_le.mpr h0
    rcases lt_or_le x 5000000 with h1 | h1
    · simp [calculate, pit2024Brackets, locateBracket, bracketContains,
        pit2024Closed, hn0, h0l, h1]
    · have hn1 : ¬ x < 5000000 := not_lt.mpr h1
      rcases lt_or_le x 10000000 with h2 | h2
      · simp [calculate, pit2024Brackets, locateBracket, bracketContains,
          pit2024Closed, hn0, h0l, h1, h2, hn1]
      · have hn2 : ¬ x < 10000000 := not_lt.mpr h2
        rcases lt_or_le x 18000000 with h3 | h3
        · simp [calculate, pit2024Brackets, locateBracket, bracketContains,
            pit2024Closed, hn0, h0l, h1, h2, h3, hn1, hn2]
        · have hn3 : ¬ x < 18000000 := not_lt.mpr h3
          rcases lt_or_le x 32000000 with h4 | h4
          · simp [calculate, pit2024Brackets, locateBracket, bracketContains,
              pit2024Closed, hn0, h0l, h1, h2, h3, h4, hn1, hn2, hn3]
          · have hn4 : ¬ x < 32000000 := not_lt.mpr h4
            rcases lt_or_le x 52000000 with h5 | h5
            · simp [calculate, pit2024Brackets, locateBracket, bracketContains,
                pit2024Closed, hn0, h0l, h1, h2, h3, h4, h5, hn1, hn2, hn3, hn4]
            · have hn5 : ¬ x < 52000000 := not_lt.mpr h5
              rcases lt_or_le x 80000000 with h6 | h6
              · simp [calculate, pit2024Brackets, locateBracket, bracketContains,
                  pit2024Closed, hn0, h0l, h1, h2, h3, h4, h5, h6, hn1, hn2, hn3, hn4, hn5]
              · have hn6 : ¬ x < 80000000 := not_lt.mpr h6
                simp [calculate, pit2024Brackets, locateBracket, bracketContains,
                  pit2024Closed, hn0, h0l, h1, h2, h3, h4, h5, h6, hn1, hn2, hn3, hn4, hn5, hn6]

set_option maxHeartbeats 1000000 in
theorem pit2024Closed_mono {x1 x2 : ℚ} (h0 : 0 ≤ x1) (h12 : x1 ≤ x2) :
    pit2024Closed x1 ≤ pit2024Closed x2 := by
  unfold pit2024Closed
  split_ifs <;> linarith

/-- Field types that occur in the seeded TNCN_ANNUAL template
(`src/unnamed/part_012` lines 1135-1161). -/
inductive TemplateFieldType where
  | TEXT
  | TEXTAREA
  | CURRENCY
deriving DecidableEq, Repr

/-- A field of a form template: name, type, required flag, and the
spec's `isCalculated` marker (spec section 3, FieldSpec). -/
structure FieldSpec where
  name : String
  ftype : TemplateFieldType
  required : Bool
  isCalculated : Bool
deriving DecidableEq, Repr

/-- A template section (spec section 3, FormTemplate): name, order, required
flag, visibility (spec section 4.2 step 1), and its fields in declared order. -/
structure TemplateSection where
  name : String
  order : Nat
  required : Bool
  visible : Bool
  fields : List FieldSpec
deriving DecidableEq, Repr

/-- A structured validation error: field name and error code
(spec section 4.2, `errors: [{field, code, message}]` without the message). -/
structure VError where
  field : String
  code : String
deriving DecidableEq, Repr

/-- Modelled from the spec: the Validator's numeric-format convention for
currency fields — a present value of a numeric field must be a non-empty digit
string, else a `FORMAT` error distinct from `REQUIRED` (spec section 4.2, edge
cases). The repository contains no Validator implementation. -/
def isNumericValue (s : String) : Bool :=
  !s.isEmpty && s.all (fun c => c.isDigit)

/-- Modelled from the spec: Validator check of a single field (spec section 4.2
steps 2-4): calculated fields are excluded from user-input checks; a required
field with an absent or empty value yields one `REQUIRED` error; a present
value of a currency field that is not numeric yields one `FORMAT` error;
otherwise the field contributes no error. -/
def checkField (f : FieldSpec) (vals : String → Option String) : List VError :=
  if f.isCalculated then []
  else
    match vals f.name with
    | none => if f.required then [⟨f.name, "REQUIRED"⟩] else []
    | some v =>
      if v.isEmpty then
        (if f.required then [⟨f.name, "REQUIRED"⟩] else [])
      else
        match f.ftype with
        | TemplateFieldType.CURRENCY =>
            if isNumericValue v then [] else [⟨f.name, "FORMAT"⟩]
        | _ => []

/-- Modelled from the spec: the Validator's error list (spec section 4.2
steps 1-3) — visit each visible section's fields in declared order and collect
each field's errors; independent fields are checked independently. -/
def validate (tmpl : List TemplateSection) (vals : String → Option String) :
    List VError :=
  (tmpl.filter (fun s => s.visible)).flatMap
    (fun s => s.fields.flatMap (fun f => checkField f vals))

/-- The TNCN_ANNUAL template seeded in `form_templates`
(`src/unnamed/part_012` lines 1135-1161): section `taxpayer_info` with required
fields `full_name`, `tax_id`, `address`, and section `income_details` with
optional currency fields `salary_income`, `business_income`, `other_income`.
Both sections are visible (the template defines no visibility predicate) and no
field is calculated. -/
def tncnAnnualTemplate : List TemplateSection :=
  [ ⟨"taxpayer_info", 1, true, true,
      [ ⟨"full_name", TemplateFieldType.TEXT, true, false⟩,
        ⟨"tax_id", TemplateFieldType.TEXT, true, false⟩,
        ⟨"address", TemplateFieldType.TEXTAREA, true, false⟩ ]⟩,
    ⟨"income_details", 2, true, true,
      [ ⟨"salary_income", TemplateFieldType.CURRENCY, false, false⟩,
        ⟨"business_income", TemplateFieldType.CURRENCY, false, false⟩,
        ⟨"other_income", TemplateFieldType.CURRENCY, false, false⟩ ]⟩ ]

/-- The fields of the visible sections of a template, in declared order. -/
def templateFields (tmpl : List TemplateSection) : List FieldSpec :=
  (tmpl.filter (fun s => s.visible)).flatMap (fun s => s.fields)

/-- Modelled from the spec: the Calculator's VAT formula (spec section 4.3
step 5) — `vatPayable = outputVAT - inputVAT`, a negative result being a refund
position; the repository only declares the `VATForm` fields
(`src/frontend/src/types/taxForm.ts` lines 273-281). -/
def computeVatPayable (outputVAT inputVAT : ℚ) : ℚ :=
  outputVAT - inputVAT

/-- A helper for the model-update frame condition: after `setForm`, looking up
the written id yields the written row, provided the id was present. -/
theorem findForm_setForm (store : FormStore) (fid : String) (g f : TaxFormData)
    (hf : findForm store fid = some f) :
    findForm (setForm store fid g) fid = some g := by
  induction store with
  | nil => simp [findForm] at hf
  | cons p rest ih =>
    obtain ⟨k, v⟩ := p
    by_cases hk : k = fid
    · simp [findForm, setForm, hk]
    · simp [findForm, setForm, hk] at hf ⊢
      exact ih hf

/-- An owner of form `f1` with a non-admin role. -/
def ownerUser : UserCtx := ⟨"u1", "individual"⟩

/-- An administrator who does not own form `f1`. -/
def adminUser : UserCtx := ⟨"u9", "admin"⟩

/-- A non-admin user who does not own form `f1`. -/
def strangerUser : UserCtx := ⟨"u2", "individual"⟩

/-- A form of `ownerUser` already in SUBMITTED state. -/
def submittedForm : TaxFormData :=
  { userId := "u1", status := FormStatus.SUBMITTED, taxYear := 2024,
    notes := none, totalTaxAmount := 0, totalPayableAmount := 0,
    submissionDate := some "2024-05-01T00:00:00Z", version := 1 }

/-- A form of `ownerUser` still in DRAFT state. -/
def draftForm : TaxFormData :=
  { userId := "u1", status := FormStatus.DRAFT, taxYear := 2024,
    notes := none, totalTaxAmount := 0, totalPayableAmount := 0,
    submissionDate := none, version := 1 }

/-- A table holding the submitted form under id `f1`. -/
def submittedStore : FormStore := [("f1", submittedForm)]

/-- A table holding the draft form under id `f1`. -/
def draftStore : FormStore := [("f1", draftForm)]

/-- An updates object that only edits the notes column. -/
def notesUpdate : FormUpdates := { notes := some (some "edited") }

/-- The submitted form after the notes edit. -/
def editedSubmittedForm : TaxFormData :=
  { submittedForm with notes := some "edited" }

/-- The draft form after the notes edit. -/
def editedDraftForm : TaxFormData :=
  { draftForm with notes := some "edited" }

/-- The draft form after a successful submit at time `2024-06-01T00:00:00Z`. -/
def submittedDraftForm : TaxFormData :=
  { draftForm with
    status := FormStatus.SUBMITTED,
    submissionDate := some "2024-06-01T00:00:00Z" }

/-- C1 (amended): an update request on a SUBMITTED form by its owner whose role
is not `admin` is rejected with the INVALID_STATUS error (the code's rendering
of the spec's StateTransitionError), for every updates object — regardless of
the supplied field values — and the stored table is unchanged. -/
theorem updateTaxForm_submitted_nonadmin_rejected (store : FormStore)
    (u : UserCtx) (fid : String) (f : TaxFormData) (upd : FormUpdates)
    (hf : findForm store fid = some f)
    (hst : f.status = FormStatus.SUBMITTED)
    (hrole : u.role ≠ "admin")
    (hown : f.userId = u.id) :
    TaxFormController.updateTaxForm store (some u) (some fid) true upd =
      ⟨Except.error ErrCode.INVALID_STATUS, store⟩ := by
  simp [TaxFormController.updateTaxForm, hf, hown, hst, hrole]

/-- Witness for C1's theorem at a concrete store, owner and update. -/
theorem updateTaxForm_submitted_nonadmin_rejected_witness :
    findForm submittedStore "f1" = some submittedForm ∧
    submittedForm.status = FormStatus.SUBMITTED ∧
    ownerUser.role ≠ "admin" ∧
    submittedForm.userId = ownerUser.id ∧
    TaxFormController.updateTaxForm submittedStore (some ownerUser) (some "f1")
        true notesUpdate =
      ⟨Except.error ErrCode.INVALID_STATUS, submittedStore⟩ :=
  ⟨rfl, rfl, by decide, rfl,
    updateTaxForm_submitted_nonadmin_rejected submittedStore ownerUser "f1"
      submittedForm notesUpdate rfl rfl (by decide) rfl⟩

/-- C1 counterexample: an admin's update of the same SUBMITTED form is not
rejected — it succeeds and mutates the stored row — so the claim's "regardless
of who the requester is" fails on the code. -/
theorem updateTaxForm_submitted_admin_bypass_cex :
    (TaxFormController.updateTaxForm submittedStore (some adminUser)
        (some "f1") true notesUpdate).response =
      Except.ok (some editedSubmittedForm) ∧
    findForm (TaxFormController.updateTaxForm submittedStore (some adminUser)
        (some "f1") true notesUpdate).store "f1" = some editedSubmittedForm ∧
    editedSubmittedForm ≠ submittedForm :=
  ⟨rfl, rfl, by decide⟩

/-- C8 (amended): among update requests on a SUBMITTED form that pass the
earlier checks (valid body, authenticated, form found, requester owns the form
or is an admin), the request is rejected with INVALID_STATUS exactly when the
requester's role is not `admin`; an admin's request proceeds to
`TaxFormModel.update`. -/
theorem updateTaxForm_submitted_invalid_status_iff_nonadmin (store : FormStore)
    (u : UserCtx) (fid : String) (f : TaxFormData) (upd : FormUpdates)
    (hf : findForm store fid = some f)
    (hst : f.status = FormStatus.SUBMITTED)
    (hacc : f.userId = u.id ∨ u.role = "admin") :
    ((TaxFormController.updateTaxForm store (some u) (some fid) true upd).response
        = Except.error ErrCode.INVALID_STATUS ↔ u.role ≠ "admin") ∧
    (u.role = "admin" →
      (TaxFormController.updateTaxForm store (some u) (some fid) true upd).response
        = Except.ok (TaxFormModel.update store fid upd).1) := by
  by_cases hadm : u.role = "admin"
  · simp [TaxFormController.updateTaxForm, hf, hst, hadm]
  · rcases hacc with hown | hadm2
    · simp [TaxFormController.updateTaxForm, hf, hst, hown, hadm]
    · exact absurd hadm2 hadm

/-- Witness for C8's theorem: the owner (non-admin) request on the submitted
form is rejected with INVALID_STATUS. -/
theorem updateTaxForm_submitted_invalid_status_iff_nonadmin_witness :
    findForm submittedStore "f1" = some submittedForm ∧
    submittedForm.status = FormStatus.SUBMITTED ∧
    (submittedForm.userId = ownerUser.id ∨ ownerUser.role = "admin") ∧
    ((TaxFormController.updateTaxForm submittedStore (some ownerUser)
        (some "f1") true notesUpdate).response
      = Except.error ErrCode.INVALID_STATUS ↔ ownerUser.role ≠ "admin") :=
  ⟨rfl, rfl, Or.inl rfl,
    (updateTaxForm_submitted_invalid_status_iff_nonadmin submittedStore
      ownerUser "f1" submittedForm notesUpdate rfl rfl (Or.inl rfl)).1⟩

/-- C8 counterexample: a non-admin requester who does not own the SUBMITTED
form is rejected with FORBIDDEN, not INVALID_STATUS, although their role is not
`admin` — so "rejected with INVALID_STATUS iff role is not admin" fails as
stated on the code. -/
theorem updateTaxForm_submitted_nonowner_forbidden_cex :
    (TaxFormController.updateTaxForm submittedStore (some strangerUser)
        (some "f1") true notesUpdate).response = Except.error ErrCode.FORBIDDEN ∧
    strangerUser.role ≠ "admin" ∧
    ErrCode.FORBIDDEN ≠ ErrCode.INVALID_STATUS :=
  ⟨rfl, by decide, by decide⟩

/-- C4 (amended): a successful submit implies the form's status immediately
before was DRAFT or COMPLETED — not only COMPLETED: the controller also accepts
a submit straight from DRAFT. -/
theorem submitTaxForm_success_from_draft_or_completed (store : FormStore)
    (u : UserCtx) (fid now : String) (f : TaxFormData)
    (r : Option TaxFormData) (store' : FormStore)
    (hf : findForm store fid = some f)
    (hres : TaxFormController.submitTaxForm store (some u) (some fid) now =
      ⟨Except.ok r, store'⟩) :
    f.status = FormStatus.DRAFT ∨ f.status = FormStatus.COMPLETED := by
  by_cases h2 : f.status = FormStatus.DRAFT
  · exact Or.inl h2
  · by_cases h3 : f.status = FormStatus.COMPLETED
    · exact Or.inr h3
    · by_cases h1 : f.userId = u.id
      · simp [TaxFormController.submitTaxForm, hf, h1, h2, h3] at hres
      · simp [TaxFormController.submitTaxForm, hf, h1] at hres

/-- Witness for C4's theorem: the concrete draft form submits successfully. -/
theorem submitTaxForm_success_from_draft_or_completed_witness :
    findForm draftStore "f1" = some draftForm ∧
    TaxFormController.submitTaxForm draftStore (some ownerUser) (some "f1")
        "2024-06-01T00:00:00Z" =
      ⟨Except.ok (some submittedDraftForm), setForm draftStore "f1" submittedDraftForm⟩ ∧
    (draftForm.status = FormStatus.DRAFT ∨ draftForm.status = FormStatus.COMPLETED) :=
  ⟨rfl, rfl,
    submitTaxForm_success_from_draft_or_completed draftStore ownerUser "f1"
      "2024-06-01T00:00:00Z" draftForm (some submittedDraftForm)
      (setForm draftStore "f1" submittedDraftForm) rfl rfl⟩

/-- C4 counterexample: a form still in DRAFT is moved directly to SUBMITTED by
a successful submit, so "SUBMITTED only from COMPLETED" fails on the code. -/
theorem submitTaxForm_from_draft_succeeds_cex :
    (TaxFormController.submitTaxForm draftStore (some ownerUser) (some "f1")
        "2024-06-01T00:00:00Z").response = Except.ok (some submittedDraftForm) ∧
    draftForm.status = FormStatus.DRAFT ∧
    draftForm.status ≠ FormStatus.COMPLETED ∧
    submittedDraftForm.status = FormStatus.SUBMITTED :=
  ⟨rfl, rfl, by decide, rfl⟩

/-- C5 (amended): `TaxFormController.createTaxForm` initializes `version` to 1,
and `TaxFormModel.update` does not increment `version`: a successful update
whose updates object does not itself set `version` stores and returns a row
whose version equals the one read before the update; no bump happens on write,
so the stale-write rejection the spec asks the caller for is not realized
here. -/
theorem update_preserves_version_create_initializes (store : FormStore)
    (fid : String) (u : FormUpdates) (f r : TaxFormData) (store' : FormStore)
    (hv : u.version = none)
    (hf : findForm store fid = some f)
    (hres : TaxFormModel.update store fid u = (some r, store')) :
    r.version = f.version ∧ findForm store' fid = some r ∧
    (∀ uid y n, (TaxFormController.createTaxForm uid y n).version = 1) := by
  by_cases hu : hasAnyUpdate u = true
  · rw [TaxFormModel.update, if_pos hu, hf] at hres
    obtain ⟨h1, h2⟩ := Prod.mk.injEq _ _ _ _ ▸ hres
    obtain rfl : applyUpdates f u = r := Option.some.inj h1
    subst h2
    refine ⟨?_, ?_, fun uid y n => rfl⟩
    · simp [applyUpdates, hv]
    · exact findForm_setForm store fid _ f hf
  · rw [TaxFormModel.update, if_neg hu] at hres
    exact absurd (Prod.mk.injEq _ _ _ _ ▸ hres).1 (by simp)

/-- Witness for C5's theorem: the concrete notes-only update of the draft form
keeps version 1. -/
theorem update_preserves_version_create_initializes_witness :
    notesUpdate.version = none ∧
    findForm draftStore "f1" = some draftForm ∧
    TaxFormModel.update draftStore "f1" notesUpdate =
      (some editedDraftForm, setForm draftStore "f1" editedDraftForm) ∧
    editedDraftForm.version = draftForm.version :=
  ⟨rfl, rfl, rfl,
    (update_preserves_version_create_initializes draftStore "f1" notesUpdate
      draftForm editedDraftForm (setForm draftStore "f1" editedDraftForm)
      rfl rfl rfl).1⟩

/-- C5 counterexample: a successful update (the notes edit) leaves the stored
version at 1, not strictly greater than the version read before the update —
so "every successful write increments version by one" fails on the code. -/
theorem update_does_not_bump_version_cex :
    (TaxFormModel.update draftStore "f1" notesUpdate).1 = some editedDraftForm ∧
    editedDraftForm.version = 1 ∧
    draftForm.version = 1 ∧
    ¬ draftForm.version < editedDraftForm.version :=
  ⟨rfl, rfl, rfl, by decide⟩

/-- C9: calling `TaxFormModel.update` with an updates object in which every
property is undefined returns `null` and leaves the table unchanged (the opened
transaction is rolled back without issuing an UPDATE), for every form id. -/
theorem update_all_undefined_noop (store : FormStore) (fid : String)
    (u : FormUpdates)
    (h1 : u.status = none) (h2 : u.taxYear = none) (h3 : u.notes = none)
    (h4 : u.totalTaxAmount = none) (h5 : u.totalPayableAmount = none)
    (h6 : u.submissionDate = none) (h7 : u.version = none) :
    TaxFormModel.update store fid u = (none, store) := by
  have hu : hasAnyUpdate u = false := by
    simp [hasAnyUpdate, h1, h2, h3, h4, h5, h6, h7]
  simp [TaxFormModel.update, hu]

/-- Witness for C9's theorem: the empty updates object on the draft store. -/
theorem update_all_undefined_noop_witness :
    ({} : FormUpdates).status = none ∧
    TaxFormModel.update draftStore "f1" {} = (none, draftStore) :=
  ⟨rfl, update_all_undefined_noop draftStore "f1" {} rfl rfl rfl rfl rfl rfl rfl⟩

/-- C10 (amended): for every role outside {individual, business, consultant,
admin} that is not the name of an `Object.prototype` member, `hasPermission`
returns false for every permission, `hasAllPermissions` returns false for
every non-empty permission list, and `getUserPermissions` returns the empty
array, with no error raised; for a role naming an `Object.prototype` member
the bracket access instead reaches the prototype chain (see the
counterexample). -/
theorem unknown_role_no_permissions (role p : String) (ps : List String)
    (h1 : role ≠ "individual") (h2 : role ≠ "business")
    (h3 : role ≠ "consultant") (h4 : role ≠ "admin")
    (hproto : objectPrototypeMembers.contains role = false)
    (hps : ps ≠ []) :
    hasPermission role p = Except.ok false ∧
    hasAllPermissions role ps = Except.ok false ∧
    getUserPermissions role = PermLookup.arr [] := by
  have hproto' : role ∉ objectPrototypeMembers := by simpa using hproto
  have hempty : rolePermissionsOrEmpty role = PermLookup.arr [] := by
    simp [rolePermissionsOrEmpty, rolePermissionsAccess, h1, h2, h3, h4, hproto']
  refine ⟨?_, ?_, ?_⟩
  · simp [hasPermission, jsIncludes, hempty]
  · cases ps with
    | nil => exact absurd rfl hps
    | cons q qs => simp [hasAllPermissions, jsEvery, jsIncludes, hempty]
  · simp [getUserPermissions, hempty]

/-- Witness for C10's theorem at the role "guest", which is neither a defined
role nor an `Object.prototype` member name. -/
theorem unknown_role_no_permissions_witness :
    ("guest" : String) ≠ "individual" ∧ ("guest" : String) ≠ "business" ∧
    ("guest" : String) ≠ "consultant" ∧ ("guest" : String) ≠ "admin" ∧
    objectPrototypeMembers.contains "guest" = false ∧
    (["tax_form:read"] : List String) ≠ [] ∧
    hasPermission "guest" "tax_form:read" = Except.ok false ∧
    hasAllPermissions "guest" ["tax_form:read"] = Except.ok false ∧
    getUserPermissions "guest" = PermLookup.arr [] := by
  refine ⟨by decide, by decide, by decide, by decide, by decide, by decide, ?_⟩
  exact unknown_role_no_permissions "guest" "tax_form:read" ["tax_form:read"]
    (by decide) (by decide) (by decide) (by decide) (by decide) (by decide)

/-- C10 counterexample: the role "toString" lies outside the four known roles,
yet `ROLE_PERMISSIONS["toString"]` hits the prototype chain: the inherited
member is truthy, so `|| []` keeps it — `getUserPermissions` returns it rather
than the empty array, and `hasPermission` / `hasAllPermissions` throw a
TypeError calling `.includes` on it instead of returning false. -/
theorem proto_role_permissions_throw_cex :
    ("toString" : String) ≠ "individual" ∧
    ("toString" : String) ≠ "business" ∧
    ("toString" : String) ≠ "consultant" ∧
    ("toString" : String) ≠ "admin" ∧
    getUserPermissions "toString" = PermLookup.protoMember "toString" ∧
    getUserPermissions "toString" ≠ PermLookup.arr [] ∧
    hasPermission "toString" "tax_form:read" = Except.error JsError.typeError ∧
    hasAllPermissions "toString" ["tax_form:read"] =
      Except.error JsError.typeError :=
  ⟨by decide, by decide, by decide, by decide, rfl, by decide, rfl, rfl⟩

/-- C2: for the seeded 2024 personal-income bracket table, a taxable income of
6,000,000 locates the bracket [5,000,000, 10,000,000) with rate 0.10 and
cumulative deduction 250,000, and `calculate` returns
6,000,000 * 0.10 - 250,000 = 350,000. -/
theorem calculate_pit2024_at_6000000 :
    locateBracket pit2024Brackets 6000000 =
      some ⟨5000000, some 10000000, 10/100, 250000⟩ ∧
    calculate pit2024Brackets 6000000 = some (6000000 * (10/100) - 250000) ∧
    (6000000 * (10/100) - 250000 : ℚ) = 350000 := by
  refine ⟨?_, ?_, ?_⟩ <;>
    norm_num [calculate, locateBracket, pit2024Brackets, bracketContains]

/-- C3: over the seeded 2024 personal-income rule set, `calculate` is monotone
non-decreasing in the taxable income: for 0 ≤ x1 ≤ x2, the tax it returns at x1
is at most the tax it returns at x2. -/
theorem calculate_pit2024_monotone (x1 x2 t1 t2 : ℚ)
    (h0 : 0 ≤ x1) (h12 : x1 ≤ x2)
    (e1 : calculate pit2024Brackets x1 = some t1)
    (e2 : calculate pit2024Brackets x2 = some t2) :
    t1 ≤ t2 := by
  rw [calculate_pit2024_eq] at e1 e2
  rw [Option.some.injEq] at e1 e2
  rw [← e1, ← e2]
  exact pit2024Closed_mono h0 h12

/-- Witness for C3's theorem at x1 = 3, x2 = 6,000,000. -/
theorem calculate_pit2024_monotone_witness :
    (0 : ℚ) ≤ 3 ∧ (3 : ℚ) ≤ 6000000 ∧
    calculate pit2024Brackets 3 = some (3/20) ∧
    calculate pit2024Brackets 6000000 = some 350000 ∧
    (3/20 : ℚ) ≤ 350000 :=
  ⟨by norm_num, by norm_num,
    by norm_num [calculate, locateBracket, pit2024Brackets, bracketContains],
    by norm_num [calculate, locateBracket, pit2024Brackets, bracketContains],
    calculate_pit2024_monotone 3 6000000 (3/20) 350000 (by norm_num)
      (by norm_num)
      (by norm_num [calculate, locateBracket, pit2024Brackets, bracketContains])
      (by norm_num [calculate, locateBracket, pit2024Brackets, bracketContains])⟩

/-- C7: the VAT payable amount is output VAT minus input VAT for every pair of
values, and at outputVAT = 1,000,000, inputVAT = 1,200,000 it is -200,000 — a
negative refund position, not clamped to zero. -/
theorem computeVatPayable_refund_not_clamped :
    (∀ outputVAT inputVAT : ℚ,
      computeVatPayable outputVAT inputVAT = outputVAT - inputVAT) ∧
    computeVatPayable 1000000 1200000 = -200000 ∧
    computeVatPayable 1000000 1200000 < 0 := by
  refine ⟨fun o i => rfl, ?_, ?_⟩ <;> norm_num [computeVatPayable]

/-- C6: for the seeded TNCN_ANNUAL template, if the required field `full_name`
is absent and every other field of the template passes its checks, the
Validator returns exactly one error — code REQUIRED on field `full_name` — and
no other field appears in the error list. -/
theorem validate_tncn_missing_full_name (vals : String → Option String)
    (hmiss : vals "full_name" = none)
    (hothers : ∀ f ∈ templateFields tncnAnnualTemplate,
      f.name ≠ "full_name" → checkField f vals = []) :
    validate tncnAnnualTemplate vals = [⟨"full_name", "REQUIRED"⟩] := by
  have h0 : checkField ⟨"full_name", TemplateFieldType.TEXT, true, false⟩ vals
      = [⟨"full_name", "REQUIRED"⟩] := by
    simp [checkField, hmiss]
  have h1 := hothers ⟨"tax_id", TemplateFieldType.TEXT, true, false⟩
    (by decide) (by decide)
  have h2 := hothers ⟨"address", TemplateFieldType.TEXTAREA, true, false⟩
    (by decide) (by decide)
  have h3 := hothers ⟨"salary_income", TemplateFieldType.CURRENCY, false, false⟩
    (by decide) (by decide)
  have h4 := hothers ⟨"business_income", TemplateFieldType.CURRENCY, false, false⟩
    (by decide) (by decide)
  have h5 := hothers ⟨"other_income", TemplateFieldType.CURRENCY, false, false⟩
    (by decide) (by decide)
  simp [validate, tncnAnnualTemplate, h0, h1, h2, h3, h4, h5]

/-- A concrete field-value map with `full_name` absent and valid values for the
other supplied fields. -/
def tncnValsMissingName : String → Option String :=
  fun n =>
    if n = "tax_id" then some "0123456789"
    else if n = "address" then some "Hanoi" else none

/-- Witness for C6's theorem at the concrete field-value map. -/
theorem validate_tncn_missing_full_name_witness :
    tncnValsMissingName "full_name" = none ∧
    (∀ f ∈ templateFields tncnAnnualTemplate,
      f.name ≠ "full_name" → checkField f tncnValsMissingName = []) ∧
    validate tncnAnnualTemplate tncnValsMissingName =
      [⟨"full_name", "REQUIRED"⟩] :=
  ⟨rfl, by decide, validate_tncn_missing_full_name tncnValsMissingName rfl (by decide)⟩
